import Mathlib

/-!
# Verification of the Improved-V-SZZ blame-chain tracer and line-remapping engine

Shallow embedding of the core components of the repository:

* `code_analyzer.py` — `SrcMLAnalyzer._analyze_structure_change` (the textual
  line mapper), `SrcMLAnalyzer.analyze` (root-commit / new-file / deleted-file
  rules around it), and `ASTAnalyzer._parse_ast_result` (the structural
  mapper's result selection);
* `icse2021-szz-replication-package/tools/pyszz/szz/my_szz.py` —
  `MySZZ.find_bic`'s per-seed `while True` walk and
  `MySZZ.map_modified_line_java`;
* `.../szz/my_szz_llm.py` — `MySZZWithLLM.find_bic`'s depth-bounded walk with
  the LLM verification hook;
* `llm_vszz.py` — `LLMEnhancedVSZZ._track_line`, `_rule_based_analysis`,
  `_convert_combined_result_to_analysis` and the oracle-fallback logic of
  `_analyze_commit_with_llm`.

Conventions of the embedding:

* Commits are numbered by `Nat`.  A repository's first-parent / parent
  structure is a function `P : Nat → List Nat` (the parent list of each
  commit); finiteness of the history is expressed by a topological-numbering
  hypothesis `∀ c p, p ∈ P c → p < c`.
* `git blame` is an abstract function `B : rev → line → Option BlameEntry`
  (the external VCS); its one semantic property, "blame attributes a line to
  a commit reachable from the queried revision", is a named hypothesis where
  a claim needs it.
* External tools (the `ASTMapEval.jar` invocation together with its on-disk
  cache, the `srcml` binary, PyDriller, the Levenshtein library and the LLM
  clients) are abstracted as function parameters; the Python code *around*
  them is embedded faithfully.
* Python exceptions that abort a per-seed walk (blame on `root^`, an empty
  blame result, a tool `KeyError`) are modelled as ending the walk loop; the
  chains the model produces therefore include every chain the code can
  produce.
* Confidences are `ℚ` (the Python floats 0.4, 0.7, … are exact decimals).
-/

namespace VSZZ

/-! ## Python string primitives used by `code_analyzer.py` -/

/-- The whitespace characters of Python's `str.strip()` /
`str.split()`. -/
def pyIsSpace (c : Char) : Bool :=
  c = ' ' || c = '\t' || c = '\n' || c = '\r' || c = '\x0b' || c = '\x0c'

/-- Python `str.strip()`: remove leading and trailing whitespace
(*not* interior whitespace). -/
def pyStrip (s : String) : String :=
  String.mk (((s.data.dropWhile pyIsSpace).reverse.dropWhile pyIsSpace).reverse)

/-- Python `str.startswith(p)`. -/
def pyStartsWith (s p : String) : Bool :=
  p.data.isPrefixOf s.data

/-- Helper for `content.split('\n')`. -/
def pySplitLinesAux : List Char → List Char → List String
  | [], acc => [String.mk acc.reverse]
  | c :: cs, acc =>
    if c = '\n' then String.mk acc.reverse :: pySplitLinesAux cs []
    else pySplitLinesAux cs (c :: acc)

/-- Python `content.split('\n')`. -/
def pySplitLines (s : String) : List String :=
  pySplitLinesAux s.data []

/-- `len(set(s1) & set(s2))` and `len(set(s1) | set(s2))` combined into the
character-set Jaccard similarity of the (dead) similarity block of
`SrcMLAnalyzer._analyze_structure_change` (`code_analyzer.py` 554-562),
which is also the metric §4.2 of the spec describes. -/
def charSetSimilarity (s1 s2 : String) : ℚ :=
  let common := (s1.data.dedup.filter (fun c => c ∈ s2.data)).length
  let total := (s1.data ++ s2.data).dedup.length
  if 0 < total then (common : ℚ) / (total : ℚ) else 0

/-- Python `min(xs, key=key)` for a nonempty list `x :: xs`: the first
element attaining the minimal key. -/
def pyMinByKey (key : Nat → Nat) (x : Nat) (xs : List Nat) : Nat :=
  xs.foldl (fun acc y => if key y < key acc then y else acc) x

/-- `abs(a - b)` on Python ints, for `Nat` line numbers. -/
def natAbsDiff (a b : Nat) : Nat := max a b - min a b

/-! ## `ToolAnalysisResult` (`code_analyzer.py` 17-27)

The `raw_output` dict is omitted: it is a diagnostic payload never read by
the control flow embedded here. -/

structure ToolAnalysisResult where
  tool_used : String
  success : Bool
  change_type : String
  source_line : Option Nat
  target_line : Option Nat
  confidence : ℚ
  error_message : Option String
deriving DecidableEq, Repr

/-! ## `SrcMLAnalyzer._analyze_structure_change` (`code_analyzer.py` 478-588) -/

/-- The exact-match scan (`code_analyzer.py` 521-524): 1-based indices of the
old lines whose `strip()` equals the stripped target content. -/
def exactMatchesOf (oldLines : List String) (targetContent : String) : List Nat :=
  (oldLines.enum.filter (fun p => pyStrip p.2 = targetContent)).map (fun p => p.1 + 1)

/-- Body of `_analyze_structure_change` on the already-split line lists.
`best_match`/`best_score` are initialised but never updated: the similarity
block of the source (lines 553-562) sits after the unconditional `return` of
the multiple-match branch and is unreachable, so it updates nothing. -/
def analyzeStructureChangeLines (oldLines newLines : List String)
    (targetLine : Nat) : ToolAnalysisResult :=
  if targetLine > newLines.length then
    ⟨"srcml", false, "Unknown", none, some targetLine, 0, some "target line out of range"⟩
  else
    let targetContent := pyStrip (newLines.getD (targetLine - 1) "")
    if targetContent = "" ∨ pyStartsWith targetContent "//" ∨ pyStartsWith targetContent "/*" then
      ⟨"srcml", false, "Unknown", none, some targetLine, 0, some "empty or comment line"⟩
    else
      let bestMatch : Option Nat := none
      let bestScore : ℚ := 0
      match exactMatchesOf oldLines targetContent with
      | [m] =>
        ⟨"srcml", true, if m ≠ targetLine then "Move" else "Unchanged",
          some m, some targetLine, 7/10, none⟩
      | m :: m2 :: rest =>
        let closest := pyMinByKey (fun x => natAbsDiff x targetLine) m (m2 :: rest)
        ⟨"srcml", true, if closest ≠ targetLine then "Move" else "Unchanged",
          some closest, some targetLine, 3/10, none⟩
      | [] =>
        if bestMatch.isSome ∧ bestScore > 6/10 then
          ⟨"srcml", true, "Update", bestMatch, some targetLine, bestScore * (1/2), none⟩
        else
          ⟨"srcml", true, "Insert", none, some targetLine, 4/10, none⟩

/-- `_analyze_structure_change` itself: the XML arguments are accepted and
ignored exactly as in the source ("simplified implementation: line-content
matching"). -/
def analyzeStructureChange (_oldXml _newXml : String) (oldContent newContent : String)
    (targetLine : Nat) : ToolAnalysisResult :=
  analyzeStructureChangeLines (pySplitLines oldContent) (pySplitLines newContent) targetLine

/-! ## `SrcMLAnalyzer.analyze` (`code_analyzer.py` 340-447)

The repository is abstracted as a parent function `P` and a
content-at-revision function `fileAt`; the external `srcml` subprocess is
the function `srcmlParse` (`none` = failure).  Python truthiness of the XML
string (`if old_xml and new_xml`) treats both `None` and `""` as false. -/

/-- Python truthiness of an `Optional[str]`. -/
def pyTruthyStr (o : Option String) : Bool :=
  match o with
  | none => false
  | some s => s ≠ ""

def srcmlAnalyze (P : Nat → List Nat) (fileAt : Nat → String → Option String)
    (srcmlParse : String → String → Option String)
    (commit : Nat) (filePath : String) (lineNum : Nat) : ToolAnalysisResult :=
  match P commit with
  | [] =>
    ⟨"srcml", true, "Insert", none, some lineNum, 9/10, none⟩
  | parent :: _ =>
    match fileAt parent filePath with
    | none =>
      -- file absent in the parent: new file
      ⟨"srcml", true, "Insert", none, some lineNum, 9/10, none⟩
    | some oldContent =>
      match fileAt commit filePath with
      | none =>
        -- file absent in the commit: deleted
        ⟨"srcml", true, "Delete", some lineNum, none, 9/10, none⟩
      | some newContent =>
        let oldXml := srcmlParse oldContent filePath
        let newXml := srcmlParse newContent filePath
        if pyTruthyStr oldXml ∧ pyTruthyStr newXml then
          analyzeStructureChange (oldXml.getD "") (newXml.getD "")
            oldContent newContent lineNum
        else
          ⟨"srcml", false, "Unknown", none, some lineNum, 0, some "srcml parse failed"⟩

/-! ## `ASTAnalyzer._parse_ast_result` (`code_analyzer.py` 256-308) and
`MySZZ.map_modified_line_java` (`my_szz.py` 111-182)

The JSON emitted by `ASTMapEval.jar`: a list of per-file results, each with a
`dst`/`targetFile` name and a list of statement mappings.  Fields read with
`.get` are `Option`s.  (`my_szz.py` indexes `stmt['srcStmtStartLine']` /
`stmt['stmtChangeType']` directly and would raise `KeyError` on a malformed
entry; the embedding treats a missing key as a non-match / `"Unknown"`, which
only diverges on malformed tool output.) -/

structure StmtMapping where
  srcStmtStartLine : Option Nat
  stmtChangeType : Option String
deriving DecidableEq, Repr

structure FileMapping where
  dst : Option String
  targetFile : Option String
  stmt : List StmtMapping
deriving DecidableEq, Repr

/-- `result.get('dst') or result.get('targetFile', '')` — Python `or`
falls through on `None` and on the empty string. -/
def resultFileOf (r : FileMapping) : String :=
  match r.dst with
  | some s => if s ≠ "" then s else r.targetFile.getD ""
  | none => r.targetFile.getD ""

/-- The statement-selection scan shared by `_parse_ast_result` and
`map_modified_line_java`: the first statement, over the results whose file
matches, whose `srcStmtStartLine` equals the queried line. -/
def findTargetStmt (mappingResults : List FileMapping) (filePath : String)
    (lineNum : Nat) : Option StmtMapping :=
  (mappingResults.filter (fun r => resultFileOf r = filePath)).findSome?
    (fun r => r.stmt.find? (fun s => s.srcStmtStartLine = some lineNum))

/-- `ASTAnalyzer._parse_ast_result`. -/
def parseAstResult (mappingResults : List FileMapping) (filePath : String)
    (lineNum : Nat) : ToolAnalysisResult :=
  match findTargetStmt mappingResults filePath lineNum with
  | none =>
    -- no mapping found: presumably newly added
    ⟨"ast", true, "Insert", none, some lineNum, 8/10, none⟩
  | some stmt =>
    let ct := stmt.stmtChangeType.getD "Unknown"
    if ct = "Insert" then
      ⟨"ast", true, "Insert", none, some lineNum, 9/10, none⟩
    else
      ⟨"ast", true, ct, stmt.srcStmtStartLine, some lineNum, 85/100, none⟩

/-- `MySZZ.map_modified_line_java`, after the cache/tool plumbing has
produced `mappingResults`: `(none, ty)` models the Python `(-1, ty)`. -/
def mapModifiedLineJava (mappingResults : List FileMapping) (filePath : String)
    (lineNum : Nat) : Option Nat × String :=
  match findTargetStmt mappingResults filePath lineNum with
  | none => (none, "New File")
  | some stmt =>
    if stmt.stmtChangeType = some "Insert" then (none, "Insert")
    else (stmt.srcStmtStartLine, stmt.stmtChangeType.getD "Unknown")

/-! ## Commit graph, blame, and ancestry -/

/-- One entry of a `git blame` result (`BlameData` in pyszz's
`abstract_szz.py`): the commit last touching the line, the line number and
the line content. -/
structure BlameEntry where
  commit : Nat
  lineNum : Nat
  lineStr : String
deriving DecidableEq, Repr

/-- `Reaches P a b`: commit `b` is `a` itself or an ancestor of `a` along
the parent lists `P`. -/
inductive Reaches (P : Nat → List Nat) : Nat → Nat → Prop
  | refl (a : Nat) : Reaches P a a
  | step {a p b : Nat} : p ∈ P a → Reaches P p b → Reaches P a b

/-- `b` is a strict (proper) ancestor of `a`. -/
def StrictAnc (P : Nat → List Nat) (a b : Nat) : Prop :=
  ∃ p ∈ P a, Reaches P p b

/-! ## `MySZZ.find_bic`'s per-seed walk (`my_szz.py` 77-101)

The inner `while True:` loop for one blame entry.  The mapper argument is
`map_modified_line` (non-Java branch; PyDriller and the Levenshtein library
make it external, so it is a parameter `M`; `none` models its `-1`).  `B r l`
is git blame of line `l` at revision `r`; the revision actually passed is
`current_commit^`, i.e. the head of the current commit's parent list.  An
exception (blame on `root^`, an empty blame list) ends the loop.  `fuel`
counts loop iterations: the source has no depth bound, so `none` means the
loop was still running after `fuel` iterations. -/

def mySZZLoopF (P : Nat → List Nat) (B : Nat → Nat → Option BlameEntry)
    (M : BlameEntry → Option Nat) : Nat → BlameEntry → Option (List BlameEntry)
  | 0, _ => none
  | fuel + 1, br =>
    match M br with
    | none => some [br]                     -- mapped_line_num == -1: break
    | some mappedLine =>
      match P br.commit with
      | [] => some [br]                     -- rev 'commit^' does not exist
      | parent :: _ =>
        match B parent mappedLine with
        | none => some [br]                 -- blame failed / returned nothing
        | some br2 => (mySZZLoopF P B M fuel br2).map (br :: ·)

/-- A step of the Java walk: the 4-tuple
`(commit.hexsha, line_num, line_str, change_type)` appended to
`previous_commits`. -/
structure Step4 where
  commit : Nat
  lineNum : Nat
  lineStr : String
  changeType : String
deriving DecidableEq, Repr

/-- `MySZZ.find_bic`'s inner loop, Java branch: the mapper is
`map_modified_line_java` applied to the AST tool's output `astMap commit`
for the (fixed) impacted file. -/
def mySZZJavaLoopF (P : Nat → List Nat) (B : Nat → Nat → Option BlameEntry)
    (astMap : Nat → List FileMapping) (filePath : String) :
    Nat → BlameEntry → Option (List Step4)
  | 0, _ => none
  | fuel + 1, br =>
    let m := mapModifiedLineJava (astMap br.commit) filePath br.lineNum
    let step : Step4 := ⟨br.commit, br.lineNum, br.lineStr, m.2⟩
    match m.1 with
    | none => some [step]
    | some mappedLine =>
      match P br.commit with
      | [] => some [step]
      | parent :: _ =>
        match B parent mappedLine with
        | none => some [step]
        | some br2 => (mySZZJavaLoopF P B astMap filePath fuel br2).map (step :: ·)

/-! ## `MySZZWithLLM.find_bic`'s per-seed walk (`my_szz_llm.py` 226-316)

Java branch of the depth-bounded loop (`max_depth = 50`).  The LLM stack
(`_llm_verify_with_validation`: large model, small-model validation loop,
JSON parsing) is abstracted as `llmVerdict br ct`: `some b` is a parsed
verdict with `is_introduction = b`, `none` is "no client / call failed /
unparsable", which the source's `if llm_verdict and not llm_verdict.get(...)`
sends to the confirm-and-break branch.  `gitLogPrev c` abstracts
`_find_previous_commit_by_git_log`. -/

def mySZZLLMLoopJava (P : Nat → List Nat) (B : Nat → Nat → Option BlameEntry)
    (astMap : Nat → List FileMapping) (filePath : String)
    (llmVerdict : BlameEntry → String → Option Bool)
    (gitLogPrev : Nat → Option Nat) (enableLLM : Bool) :
    Nat → BlameEntry → List Step4
  | 0, _ => []
  | depth + 1, br =>
    let m := mapModifiedLineJava (astMap br.commit) filePath br.lineNum
    let step : Step4 := ⟨br.commit, br.lineNum, br.lineStr, m.2⟩
    step ::
      (if (m.2 = "Insert" ∨ m.2 = "New File") ∧ enableLLM = true then
        match llmVerdict br m.2 with
        | some false =>
          -- LLM says this is not the true introduction point
          if m.2 = "New File" then
            match gitLogPrev br.commit with
            | some nextCommit =>
              match P nextCommit with
              | [] => []                    -- rev 'next^' does not exist
              | parent :: _ =>
                match B parent br.lineNum with
                | none => []                -- blame empty or failed
                | some br2 =>
                  mySZZLLMLoopJava P B astMap filePath llmVerdict gitLogPrev
                    enableLLM depth br2
            | none => []                    -- git log found nothing earlier
          else
            -- change_type is "Insert": fall through to the mapped-line check
            match m.1 with
            | none => []
            | some mappedLine =>
              match P br.commit with
              | [] => []
              | parent :: _ =>
                match B parent mappedLine with
                | none => []
                | some br2 =>
                  mySZZLLMLoopJava P B astMap filePath llmVerdict gitLogPrev
                    enableLLM depth br2
        | _ =>
          -- LLM confirms the introduction point (or returned nothing): break
          []
      else
        match m.1 with
        | none => []
        | some mappedLine =>
          match P br.commit with
          | [] => []
          | parent :: _ =>
            match B parent mappedLine with
            | none => []
            | some br2 =>
              mySZZLLMLoopJava P B astMap filePath llmVerdict gitLogPrev
                enableLLM depth br2)

/-! ## `LLMEnhancedVSZZ` (`llm_vszz.py`)

`CombinedToolResult` (`code_analyzer.py` 30-61), the no-oracle fallbacks
(`_rule_based_analysis`, `_convert_combined_result_to_analysis`) and the
tracking loop `_track_line`.  The LLM chat call, its JSON parsing and the
`NEED_MORE_INFO` context escalation of `_analyze_commit_with_llm` are
abstracted as one oracle function (`none` = no client configured, call
failed, or the response did not parse — all of which land in the same
`except` fallback in the source).  Commit metadata (date, message, author)
and the free-text `reasoning` strings are elided. -/

structure CombinedToolResult where
  ast_result : Option ToolAnalysisResult
  srcml_result : Option ToolAnalysisResult
  file_path : String
  line_num : Nat
deriving DecidableEq, Repr

/-- `CombinedToolResult.has_any_result`. -/
def CombinedToolResult.hasAnyResult (cr : CombinedToolResult) : Bool :=
  (match cr.ast_result with | some a => a.success | none => false) ||
  (match cr.srcml_result with | some s => s.success | none => false)

/-- Python truthiness of an `Optional[int]` line number (`0` is falsy). -/
def pyTruthyNat (o : Option Nat) : Bool :=
  match o with
  | none => false
  | some n => n ≠ 0

/-- One arm of `CombinedToolResult.get_best_source_line`:
`if r and r.success and r.source_line: return r.source_line`. -/
def bestSourceLineFrom (r : Option ToolAnalysisResult) : Option Nat :=
  match r with
  | some a => if a.success && pyTruthyNat a.source_line then a.source_line else none
  | none => none

/-- `CombinedToolResult.get_best_source_line` (AST preferred). -/
def CombinedToolResult.getBestSourceLine (cr : CombinedToolResult) : Option Nat :=
  (bestSourceLineFrom cr.ast_result).orElse (fun _ => bestSourceLineFrom cr.srcml_result)

/-- The analysis dict produced by `_analyze_commit_with_llm` and consumed by
`_track_line`: `change_type` plus the `continue_tracking` sub-dict. -/
structure Analysis where
  change_type : String
  should_continue : Bool
  target_line : Option Nat
  target_file : Option String
  confidence : ℚ
deriving DecidableEq, Repr

/-- `LLMEnhancedVSZZ._rule_based_analysis` (`llm_vszz.py` 922-935): the
no-LLM fallback — `MODIFIED`, keep walking, line number unchanged. -/
def ruleBasedAnalysis (blameEntry : BlameEntry) : Analysis :=
  ⟨"MODIFIED", true, some blameEntry.lineNum, none, 1/2⟩

/-- The tool-to-LLM change-type dictionary of
`_convert_combined_result_to_analysis` (`llm_vszz.py` 844-853), with its
`.get(…, 'MODIFIED')` default. -/
def changeTypeMap (ct : String) : String :=
  if ct = "Insert" then "INTRODUCED"
  else if ct = "Delete" then "MODIFIED"
  else if ct = "Update" then "MODIFIED"
  else if ct = "Move" then "MODIFIED"
  else if ct = "Unchanged" then "UNRELATED"
  else if ct = "Unknown" then "MODIFIED"
  else "MODIFIED"

/-- `LLMEnhancedVSZZ._convert_combined_result_to_analysis` (`llm_vszz.py`
831-868).  When the selected tool result is missing or unsuccessful the
source calls `self._rule_based_analysis(None)`, which dereferences
`None.line_num` and raises; that path is `none` here (it is unreachable from
the call sites, which guard on `has_any_result`). -/
def convertCombinedResultToAnalysis (cr : CombinedToolResult) : Option Analysis :=
  let toolResult := match cr.ast_result with
    | some a => if a.success then some a else cr.srcml_result
    | none => cr.srcml_result
  match toolResult with
  | none => none
  | some tr =>
    if tr.success then
      let ct := changeTypeMap tr.change_type
      let sourceLine := cr.getBestSourceLine
      some ⟨ct, ct = "MODIFIED" && sourceLine.isSome, sourceLine, none, tr.confidence⟩
    else none

/-- The fallback arm of `_analyze_commit_with_llm` (`llm_vszz.py` 632-636
and 735-740): tools if they have a result, else the rule-based default. -/
def analyzeCommitFallback (combined : Option CombinedToolResult)
    (blameEntry : BlameEntry) : Option Analysis :=
  match combined with
  | some cr =>
    if cr.hasAnyResult then convertCombinedResultToAnalysis cr
    else some (ruleBasedAnalysis blameEntry)
  | none => some (ruleBasedAnalysis blameEntry)

/-- `_analyze_commit_with_llm`, with the whole LLM interaction abstracted as
`oracle`.  A successful oracle answer may inherit the tools' best source
line when it did not name a target line itself (`llm_vszz.py` 726-731);
`none` (no client / failure / unparsable response) takes the fallback. -/
def analyzeCommitWithLLM (oracle : BlameEntry → Option Analysis)
    (combined : Option CombinedToolResult) (blameEntry : BlameEntry) :
    Option Analysis :=
  match oracle blameEntry with
  | some r =>
    some (match combined with
      | some cr =>
        if cr.hasAnyResult then
          match cr.getBestSourceLine with
          | some best => if r.target_line = none then { r with target_line := some best } else r
          | none => r
        else r
      | none => r)
  | none => analyzeCommitFallback combined blameEntry

/-- A recorded step of `_track_line`'s chain (`llm_vszz.py` 263-275,
559-571), commit metadata elided. -/
structure TrackingStep where
  commit_hash : Nat
  file_path : String
  line_num : Nat
  code_snippet : String
  change_type : String
  confidence : ℚ
deriving DecidableEq, Repr

/-- Python `x or default` on an optional line number (`target_line or
current_line`): `None` *and* `0` fall back. -/
def pyOrNat (o : Option Nat) (d : Nat) : Nat :=
  match o with
  | none => d
  | some n => if n = 0 then d else n

/-- Python `x or default` on an optional file path (`target_file or
current_file`): `None` and `""` fall back. -/
def pyOrStr (o : Option String) (d : String) : String :=
  match o with
  | none => d
  | some s => if s = "" then d else s

/-- `LLMEnhancedVSZZ._track_line`'s loop (`llm_vszz.py` 516-591),
`for depth in range(max_tracking_depth)`.  `analyze e f l` abstracts Step 2
(tool invocation at `(e.commit, f, l)` plus `_analyze_commit_with_llm`);
its `none` is an uncaught exception, which ends this seed.  Blame is issued
at `current_commit^`, the head of the parent list. -/
def trackLine (P : Nat → List Nat) (B : Nat → String → Nat → Option BlameEntry)
    (analyze : BlameEntry → String → Nat → Option Analysis)
    (skipCommits : List Nat) :
    Nat → Nat → String → Nat → List TrackingStep
  | 0, _, _, _ => []
  | depth + 1, currentCommit, currentFile, currentLine =>
    match P currentCommit with
    | [] => []                              -- rev 'current^' does not exist
    | parent :: _ =>
      match B parent currentFile currentLine with
      | none => []                          -- blame failed
      | some e =>
        if e.commit ∈ skipCommits then
          -- rejected BIC from feedback: advance past it without a step
          trackLine P B analyze skipCommits depth e.commit currentFile currentLine
        else
          match analyze e currentFile currentLine with
          | none => []
          | some a =>
            let step : TrackingStep :=
              ⟨e.commit, currentFile, currentLine,
                String.mk (e.lineStr.data.take 200), a.change_type, a.confidence⟩
            step ::
              (if a.change_type = "INTRODUCED" then []
              else if a.change_type = "MODIFIED" then
                if a.should_continue then
                  trackLine P B analyze skipCommits depth e.commit
                    (pyOrStr a.target_file currentFile)
                    (pyOrNat a.target_line currentLine)
                else []
              else if a.change_type = "UNRELATED" then
                trackLine P B analyze skipCommits depth e.commit currentFile currentLine
              else
                -- e.g. NEED_MORE_INFO after escalation: nothing is updated,
                -- the loop simply runs its next iteration
                trackLine P B analyze skipCommits depth currentCommit currentFile
                  currentLine)

/-! ## Spec-side definition for the normalization comparison

The spec (§4.2, TextualMapper step 3) says "Whitespace-normalize both sides
(strip all whitespace) before comparison".  This definition follows those
words — removal of *every* whitespace character — so it can be compared with
the `str.strip()` the code actually performs. -/

/-- Removal of all whitespace characters, as the spec's words describe. -/
def stripAllWhitespace (s : String) : String :=
  String.mk (s.data.filter (fun c => !pyIsSpace c))

/-! ## Concrete demo instantiations

A linear history used to evaluate the walker theorems on concrete inputs:
commit `c`'s only parent is `c - 1`, commit `0` is the root, and blame
attributes the queried line at revision `r` to `r` itself (each commit last
touched the line at itself — e.g. every commit edits the line slightly, so
`map_modified_line`'s Levenshtein match keeps returning it). -/

def demoParents : Nat → List Nat := fun c => if c = 0 then [] else [c - 1]

def demoBlame : Nat → Nat → Option BlameEntry := fun r l => some ⟨r, l, ""⟩

/-- AST-tool output for the demo: commit 1 inserted line 1 of `A.java`,
every other commit updated it in place. -/
def astMapDemo : Nat → List FileMapping := fun c =>
  if c = 1 then [⟨some "A.java", none, [⟨some 1, some "Insert"⟩]⟩]
  else [⟨some "A.java", none, [⟨some 1, some "Update"⟩]⟩]

/-! ## Helper lemmas -/

theorem demoParents_topo : ∀ c p, p ∈ demoParents c → p < c := by
  intro c p h
  unfold demoParents at h
  split at h
  · simp at h
  · simp at h
    omega

theorem demoBlame_le : ∀ r l e, demoBlame r l = some e → e.commit ≤ r := by
  intro r l e h
  simp only [demoBlame, Option.some.injEq] at h
  subst h
  exact le_refl r

theorem demoBlame_reaches : ∀ r l e, demoBlame r l = some e → Reaches demoParents r e.commit := by
  intro r l e h
  simp only [demoBlame, Option.some.injEq] at h
  subst h
  exact Reaches.refl r

/-- One step of `pyMinByKey`. -/
theorem pyMinByKey_cons (key : Nat → Nat) (x y : Nat) (ys : List Nat) :
    pyMinByKey key x (y :: ys) = pyMinByKey key (if key y < key x then y else x) ys := rfl

/-- `min(..., key=...)` returns an element of the list. -/
theorem pyMinByKey_mem (key : Nat → Nat) (x : Nat) (xs : List Nat) :
    pyMinByKey key x xs ∈ x :: xs := by
  induction xs generalizing x with
  | nil => simp [pyMinByKey]
  | cons y ys ih =>
    rw [pyMinByKey_cons]
    rcases List.mem_cons.mp (ih (if key y < key x then y else x)) with h | h
    · rw [h]
      split <;> simp
    · simp [h]

/-- `min(..., key=...)` attains the minimal key. -/
theorem pyMinByKey_le (key : Nat → Nat) (x : Nat) (xs : List Nat) :
    ∀ y ∈ x :: xs, key (pyMinByKey key x xs) ≤ key y := by
  induction xs generalizing x with
  | nil => simp [pyMinByKey]
  | cons z zs ih =>
    intro y hy
    rw [pyMinByKey_cons]
    have hmin : key (pyMinByKey key (if key z < key x then z else x) zs) ≤
        key (if key z < key x then z else x) :=
      ih (if key z < key x then z else x) _ (List.mem_cons_self _ _)
    rcases List.mem_cons.mp hy with h | h
    · subst h
      refine le_trans hmin ?_
      split <;> omega
    · rcases List.mem_cons.mp h with h' | h'
      · subst h'
        refine le_trans hmin ?_
        split <;> omega
      · exact ih (if key z < key x then z else x) y (List.mem_cons_of_mem _ h')

/-- If `map_modified_line_java` labels the statement `"Insert"`, then the
mapped line it returns is `-1` (`none`). -/
theorem mapModifiedLineJava_insert (res : List FileMapping) (fp : String) (ln : Nat)
    (h : (mapModifiedLineJava res fp ln).2 = "Insert") :
    (mapModifiedLineJava res fp ln).1 = none := by
  unfold mapModifiedLineJava at h ⊢
  cases hf : findTargetStmt res fp ln with
  | none => simp [hf] at h
  | some stmt =>
    simp only [hf] at h ⊢
    by_cases hins : stmt.stmtChangeType = some "Insert"
    · simp [hins]
    · simp only [if_neg hins] at h ⊢
      cases hct : stmt.stmtChangeType with
      | none => simp [hct] at h
      | some t =>
        exfalso
        apply hins
        rw [hct]
        simp [hct] at h
        rw [h]

/-- Reduction of `_analyze_structure_change` for an in-range, non-empty,
non-comment target line: the result is decided by the exact-match list, and
in the zero-match case the similarity branch is skipped because
`best_match`/`best_score` still hold their initial values. -/
theorem analyzeStructureChangeLines_eq_match (oldLines newLines : List String) (t : Nat)
    (ht2 : t ≤ newLines.length)
    (hne : pyStrip (newLines.getD (t - 1) "") ≠ "")
    (hc1 : pyStartsWith (pyStrip (newLines.getD (t - 1) "")) "//" = false)
    (hc2 : pyStartsWith (pyStrip (newLines.getD (t - 1) "")) "/*" = false) :
    analyzeStructureChangeLines oldLines newLines t =
      match exactMatchesOf oldLines (pyStrip (newLines.getD (t - 1) "")) with
      | [m] =>
        ⟨"srcml", true, if m ≠ t then "Move" else "Unchanged", some m, some t, 7/10, none⟩
      | m :: m2 :: rest =>
        ⟨"srcml", true,
          if pyMinByKey (fun x => natAbsDiff x t) m (m2 :: rest) ≠ t then "Move" else "Unchanged",
          some (pyMinByKey (fun x => natAbsDiff x t) m (m2 :: rest)), some t, 3/10, none⟩
      | [] => ⟨"srcml", true, "Insert", none, some t, 4/10, none⟩ := by
  simp only [analyzeStructureChangeLines]
  rw [if_neg (by omega)]
  rw [if_neg (by
    push_neg
    refine ⟨by simpa [List.getD] using hne, by simpa [List.getD] using hc1,
      by simpa [List.getD] using hc2⟩)]
  cases h : exactMatchesOf oldLines (pyStrip (newLines.getD (t - 1) "")) with
  | nil => simp
  | cons a l => cases l <;> rfl

/-! ## The claims -/

/-- **C2** — the spec's similarity fallback ("zero exact matches ⇒ compute
char-set similarity; best score > 0.6 ⇒ Update with confidence score × 0.5",
Scenario 6) does not happen in the code: at the Scenario-6 input the
char-set similarity of the best candidate is 1 (> 0.6), yet
`_analyze_structure_change` returns Insert with confidence 0.4, because the
similarity block sits after the unconditional `return` of the
multiple-match branch (`code_analyzer.py` 541-551) and is unreachable. -/
theorem c2_similarity_fallback_is_dead_code :
    charSetSimilarity "int x = compute(a, b, c);" "int x = compute(a,b);" = 1 ∧
    ((1 : ℚ) > 6/10) ∧
    analyzeStructureChangeLines ["int x = compute(a, b, c);"] ["int x = compute(a,b);"] 1 =
      ⟨"srcml", true, "Insert", none, some 1, 4/10, none⟩ := by
  refine ⟨?_, by norm_num, rfl⟩
  have h1 : ("int x = compute(a, b, c);".data.dedup.filter
      (fun c => c ∈ "int x = compute(a,b);".data)).length = 18 := by decide
  have h2 : (("int x = compute(a, b, c);".data ++ "int x = compute(a,b);".data).dedup).length
      = 18 := by decide
  simp [charSetSimilarity, h1, h2]

/-- **C5**, counterexample — the claim says the mapper strips *all*
whitespace before comparison.  With parent line `"foo ();"` and target
`"foo();"` the two sides are equal after removing all whitespace (and that
parent line is the unique such match, so the claim requires Unchanged with
confidence 0.7), but the code compares `str.strip()`ed lines, finds no
exact match, and returns Insert with confidence 0.4. -/
theorem c5_counterexample :
    stripAllWhitespace "foo ();" = stripAllWhitespace "foo();" ∧
    (["foo ();"].filter (fun l => stripAllWhitespace l = stripAllWhitespace "foo();")).length = 1 ∧
    analyzeStructureChangeLines ["foo ();"] ["foo();"] 1 =
      ⟨"srcml", true, "Insert", none, some 1, 4/10, none⟩ ∧
    (analyzeStructureChangeLines ["foo ();"] ["foo();"] 1).change_type ≠ "Unchanged" := by
  refine ⟨by decide, by decide, rfl, ?_⟩
  rw [show analyzeStructureChangeLines ["foo ();"] ["foo();"] 1 =
    ⟨"srcml", true, "Insert", none, some 1, 4/10, none⟩ from rfl]
  decide

/-- **C5**, amended — the textual mapper normalizes both sides with
`str.strip()` (leading and trailing whitespace only); for an in-range,
non-empty, non-comment target line with exactly one strip-equal parent
line `m`, it returns Move when `m` differs from the target's line number
and Unchanged otherwise, with parent line `m` and confidence 0.7. -/
theorem c5_strip_unique_match (oldLines newLines : List String) (t m : Nat)
    (ht2 : t ≤ newLines.length)
    (hne : pyStrip (newLines.getD (t - 1) "") ≠ "")
    (hc1 : pyStartsWith (pyStrip (newLines.getD (t - 1) "")) "//" = false)
    (hc2 : pyStartsWith (pyStrip (newLines.getD (t - 1) "")) "/*" = false)
    (huniq : exactMatchesOf oldLines (pyStrip (newLines.getD (t - 1) "")) = [m]) :
    analyzeStructureChangeLines oldLines newLines t =
      ⟨"srcml", true, if m ≠ t then "Move" else "Unchanged", some m, some t, 7/10, none⟩ := by
  rw [analyzeStructureChangeLines_eq_match oldLines newLines t ht2 hne hc1 hc2, huniq]

/-- **C5**, witness — Scenario 1: parent line 10 is `"foo();"`, the target
at line 12 is `"  foo();  "`; the mapper answers Move to line 10 with
confidence 0.7. -/
theorem c5_witness :
    analyzeStructureChangeLines (List.replicate 9 "" ++ ["foo();"])
      (List.replicate 11 "" ++ ["  foo();  "]) 12 =
      ⟨"srcml", true, "Move", some 10, some 12, 7/10, none⟩ := by
  have h := c5_strip_unique_match (List.replicate 9 "" ++ ["foo();"])
    (List.replicate 11 "" ++ ["  foo();  "]) 12 10
    (by decide) (by decide) (by decide) (by decide) (by decide)
  simpa using h

/-- **C6** — with more than one strip-equal parent line the mapper returns
the candidate whose line number is nearest the target's (Python `min` with
an absolute-distance key, first winner on ties), classification Move or
Unchanged by line-number comparison, confidence 0.3; the returned line is a
member of the match list and attains the minimal distance. -/
theorem c6_multiple_matches (oldLines newLines : List String) (t m m2 : Nat) (rest : List Nat)
    (ht2 : t ≤ newLines.length)
    (hne : pyStrip (newLines.getD (t - 1) "") ≠ "")
    (hc1 : pyStartsWith (pyStrip (newLines.getD (t - 1) "")) "//" = false)
    (hc2 : pyStartsWith (pyStrip (newLines.getD (t - 1) "")) "/*" = false)
    (hmulti : exactMatchesOf oldLines (pyStrip (newLines.getD (t - 1) "")) = m :: m2 :: rest) :
    analyzeStructureChangeLines oldLines newLines t =
      ⟨"srcml", true,
        if pyMinByKey (fun x => natAbsDiff x t) m (m2 :: rest) ≠ t then "Move" else "Unchanged",
        some (pyMinByKey (fun x => natAbsDiff x t) m (m2 :: rest)), some t, 3/10, none⟩
    ∧ pyMinByKey (fun x => natAbsDiff x t) m (m2 :: rest) ∈ m :: m2 :: rest
    ∧ ∀ x ∈ m :: m2 :: rest,
        natAbsDiff (pyMinByKey (fun x => natAbsDiff x t) m (m2 :: rest)) t ≤ natAbsDiff x t := by
  refine ⟨?_, pyMinByKey_mem _ _ _,
    fun x hx => pyMinByKey_le (fun x => natAbsDiff x t) m (m2 :: rest) x hx⟩
  rw [analyzeStructureChangeLines_eq_match oldLines newLines t ht2 hne hc1 hc2, hmulti]

/-- **C6**, witness — Scenario 4: parent lines 8 and 40 both strip-equal to
the target at line 10; the mapper picks line 8 (nearer), Move, 0.3. -/
theorem c6_witness :
    exactMatchesOf (List.replicate 7 "" ++ ["x = 1;"] ++ List.replicate 31 "" ++ ["x = 1;"])
      (pyStrip "x = 1;") = [8, 40] ∧
    analyzeStructureChangeLines
      (List.replicate 7 "" ++ ["x = 1;"] ++ List.replicate 31 "" ++ ["x = 1;"])
      (List.replicate 9 "" ++ ["x = 1;"]) 10 =
      ⟨"srcml", true, "Move", some 8, some 10, 3/10, none⟩ := by
  refine ⟨by decide, ?_⟩
  have h := (c6_multiple_matches
    (List.replicate 7 "" ++ ["x = 1;"] ++ List.replicate 31 "" ++ ["x = 1;"])
    (List.replicate 9 "" ++ ["x = 1;"]) 10 8 40 []
    (by decide) (by decide) (by decide) (by decide) (by decide)).1
  rw [show pyMinByKey (fun x => natAbsDiff x 10) 8 [40] = 8 from by decide] at h
  simpa using h

/-- **C7** — when the structural mapper's statement mapping has no entry
whose resolved target file equals the queried file with a statement whose
`srcStmtStartLine` equals the queried line, `_parse_ast_result` classifies
the line as Insert with confidence 0.8 and no source line. -/
theorem c7_no_matching_stmt (mappingResults : List FileMapping) (filePath : String)
    (lineNum : Nat)
    (hnone : ∀ r ∈ mappingResults, resultFileOf r = filePath →
      ∀ s ∈ r.stmt, s.srcStmtStartLine ≠ some lineNum) :
    parseAstResult mappingResults filePath lineNum =
      ⟨"ast", true, "Insert", none, some lineNum, 8/10, none⟩ := by
  have hfind : findTargetStmt mappingResults filePath lineNum = none := by
    unfold findTargetStmt
    rw [List.findSome?_eq_none_iff]
    intro r hr
    rw [List.find?_eq_none]
    intro s hs hcontra
    have hrmem := List.mem_filter.mp hr
    exact hnone r hrmem.1 (by simpa using hrmem.2) s hs (by simpa using hcontra)
  unfold parseAstResult
  rw [hfind]

/-- **C7**, witness — Scenario 5 at a concrete mapping: the tool's output
names the right file but only line 5; querying line 7 yields Insert, 0.8. -/
theorem c7_witness :
    parseAstResult [⟨some "a.c", none, [⟨some 5, some "Update"⟩]⟩] "a.c" 7 =
      ⟨"ast", true, "Insert", none, some 7, 8/10, none⟩ :=
  c7_no_matching_stmt _ _ _ (by decide)

/-- **C10** — for an in-range, non-empty, non-comment target line with
zero strip-equal parent lines, `_analyze_structure_change` always answers
Insert with confidence 0.4; and the function never returns classification
Update on any input, because the similarity branch that would produce
Update tests `best_match`/`best_score` values that nothing ever updates. -/
theorem c10_never_update :
    (∀ oldLines newLines t, t ≤ newLines.length →
      pyStrip (newLines.getD (t - 1) "") ≠ "" →
      pyStartsWith (pyStrip (newLines.getD (t - 1) "")) "//" = false →
      pyStartsWith (pyStrip (newLines.getD (t - 1) "")) "/*" = false →
      exactMatchesOf oldLines (pyStrip (newLines.getD (t - 1) "")) = [] →
      analyzeStructureChangeLines oldLines newLines t =
        ⟨"srcml", true, "Insert", none, some t, 4/10, none⟩)
    ∧ ∀ oldLines newLines t,
        (analyzeStructureChangeLines oldLines newLines t).change_type ≠ "Update" := by
  constructor
  · intro oldLines newLines t ht2 hne hc1 hc2 hzero
    rw [analyzeStructureChangeLines_eq_match oldLines newLines t ht2 hne hc1 hc2, hzero]
  · intro oldLines newLines t
    simp only [analyzeStructureChangeLines]
    split
    · simp
    · split
      · simp
      · split
        · split <;> simp
        · split <;> simp
        · split
          · rename_i hdead
            simp at hdead
          · simp

/-- **C10**, witness — a concrete no-match input: Insert, 0.4. -/
theorem c10_witness :
    analyzeStructureChangeLines ["int y = 2;"] ["int x = 1;"] 1 =
      ⟨"srcml", true, "Insert", none, some 1, 4/10, none⟩ :=
  c10_never_update.1 ["int y = 2;"] ["int x = 1;"] 1
    (by decide) (by decide) (by decide) (by decide) (by decide)

/-! ## Walker lemmas -/

/-- A chain the `MySZZ` walk reports is never empty. -/
theorem mySZZLoopF_ne_nil (P : Nat → List Nat) (B : Nat → Nat → Option BlameEntry)
    (M : BlameEntry → Option Nat) (fuel : Nat) (br : BlameEntry) (ch : List BlameEntry)
    (h : mySZZLoopF P B M fuel br = some ch) : ch ≠ [] := by
  cases fuel with
  | zero => simp [mySZZLoopF] at h
  | succ n =>
    simp only [mySZZLoopF] at h
    cases hM : M br with
    | none => simp only [hM, Option.some.injEq] at h; subst h; simp
    | some mapped =>
      simp only [hM] at h
      cases hP : P br.commit with
      | nil => simp only [hP, Option.some.injEq] at h; subst h; simp
      | cons parent rest =>
        simp only [hP] at h
        cases hB : B parent mapped with
        | none => simp only [hB, Option.some.injEq] at h; subst h; simp
        | some br2 =>
          simp only [hB, Option.map_eq_some'] at h
          obtain ⟨ch2, _, rfl⟩ := h
          simp

/-- A chain the `MySZZ` walk reports starts at the seed's blame entry. -/
theorem mySZZLoopF_head (P : Nat → List Nat) (B : Nat → Nat → Option BlameEntry)
    (M : BlameEntry → Option Nat) (fuel : Nat) (br : BlameEntry) (ch : List BlameEntry)
    (h : mySZZLoopF P B M (fuel + 1) br = some ch) : ∃ t, ch = br :: t := by
  simp only [mySZZLoopF] at h
  cases hM : M br with
  | none => simp only [hM, Option.some.injEq] at h; subst h; exact ⟨[], rfl⟩
  | some mapped =>
    simp only [hM] at h
    cases hP : P br.commit with
    | nil => simp only [hP, Option.some.injEq] at h; subst h; exact ⟨[], rfl⟩
    | cons parent rest =>
      simp only [hP] at h
      cases hB : B parent mapped with
      | none => simp only [hB, Option.some.injEq] at h; subst h; exact ⟨[], rfl⟩
      | some br2 =>
        simp only [hB, Option.map_eq_some'] at h
        obtain ⟨ch2, _, rfl⟩ := h
        exact ⟨ch2, rfl⟩

/-- Any step of a `MySZZ` chain other than the last sits at a commit that
has a parent: a root commit (blame at `root^` raises) ends the walk. -/
theorem mySZZLoopF_root_last (P : Nat → List Nat) (B : Nat → Nat → Option BlameEntry)
    (M : BlameEntry → Option Nat) :
    ∀ fuel br ch, mySZZLoopF P B M fuel br = some ch →
    ∀ s ∈ ch.dropLast, P s.commit ≠ [] := by
  intro fuel
  induction fuel with
  | zero => intro br ch h; simp [mySZZLoopF] at h
  | succ n ih =>
    intro br ch h
    simp only [mySZZLoopF] at h
    cases hM : M br with
    | none => simp only [hM, Option.some.injEq] at h; subst h; simp
    | some mapped =>
      simp only [hM] at h
      cases hP : P br.commit with
      | nil => simp only [hP, Option.some.injEq] at h; subst h; simp
      | cons parent rest =>
        simp only [hP] at h
        cases hB : B parent mapped with
        | none => simp only [hB, Option.some.injEq] at h; subst h; simp
        | some br2 =>
          simp only [hB, Option.map_eq_some'] at h
          obtain ⟨ch2, hch2, rfl⟩ := h
          intro s hs
          have hne : ch2 ≠ [] := mySZZLoopF_ne_nil P B M n _ ch2 hch2
          cases ch2 with
          | nil => exact absurd rfl hne
          | cons a l =>
            rw [List.dropLast_cons₂] at hs
            rcases List.mem_cons.mp hs with rfl | hs'
            · rw [hP]; simp
            · exact ih _ (a :: l) hch2 s hs'

/-- Termination of the unbounded `while True:` walk on a finite
(topologically numbered) history: each blame step moves to a strict
ancestor, so `commit + 1` iterations always suffice and bound the chain. -/
theorem mySZZLoopF_terminates (P : Nat → List Nat) (B : Nat → Nat → Option BlameEntry)
    (M : BlameEntry → Option Nat)
    (htopo : ∀ c p, p ∈ P c → p < c)
    (hble : ∀ r l e, B r l = some e → e.commit ≤ r) :
    ∀ fuel br, br.commit < fuel →
    ∃ ch, mySZZLoopF P B M fuel br = some ch ∧ ch.length ≤ br.commit + 1 := by
  intro fuel
  induction fuel with
  | zero => intro br h; omega
  | succ n ih =>
    intro br hbr
    cases hM : M br with
    | none => exact ⟨[br], by simp [mySZZLoopF, hM], by simp⟩
    | some mapped =>
      cases hP : P br.commit with
      | nil => exact ⟨[br], by simp [mySZZLoopF, hM, hP], by simp⟩
      | cons parent rest =>
        cases hB : B parent mapped with
        | none => exact ⟨[br], by simp [mySZZLoopF, hM, hP, hB], by simp⟩
        | some br2 =>
          have h1 : parent < br.commit := htopo _ _ (by rw [hP]; exact List.mem_cons_self _ _)
          have h2 : br2.commit ≤ parent := hble _ _ _ hB
          obtain ⟨ch2, hch2, hlen⟩ := ih br2 (by omega)
          refine ⟨br :: ch2, by simp [mySZZLoopF, hM, hP, hB, hch2], ?_⟩
          simp only [List.length_cons]
          omega

/-- The LLM-assisted walk appends one step per loop iteration, so its chain
never exceeds the remaining depth budget. -/
theorem mySZZLLMLoopJava_length_le (P : Nat → List Nat) (B : Nat → Nat → Option BlameEntry)
    (astMap : Nat → List FileMapping) (fp : String)
    (llm : BlameEntry → String → Option Bool) (glog : Nat → Option Nat) (en : Bool) :
    ∀ depth br, (mySZZLLMLoopJava P B astMap fp llm glog en depth br).length ≤ depth := by
  intro depth
  induction depth with
  | zero => intro br; simp [mySZZLLMLoopJava]
  | succ n ih =>
    intro br
    simp only [mySZZLLMLoopJava, List.length_cons]
    rw [Nat.add_le_add_iff_right]
    repeat' split
    all_goals first
      | exact ih _
      | simp

/-- Reachability along a topologically numbered history only descends. -/
theorem reaches_le (P : Nat → List Nat) (htopo : ∀ c p, p ∈ P c → p < c)
    {a b : Nat} (h : Reaches P a b) : b ≤ a := by
  induction h with
  | refl a => exact le_refl a
  | step hp _ ih => exact le_trans ih (le_of_lt (htopo _ _ hp))

/-- The `MySZZ` chain steps both strictly descend the ancestry relation and
strictly decrease in commit number. -/
theorem mySZZLoopF_chain (P : Nat → List Nat) (B : Nat → Nat → Option BlameEntry)
    (M : BlameEntry → Option Nat)
    (htopo : ∀ c p, p ∈ P c → p < c)
    (hblame : ∀ r l e, B r l = some e → Reaches P r e.commit) :
    ∀ fuel br ch, mySZZLoopF P B M fuel br = some ch →
    List.Chain' (fun s t => StrictAnc P s.commit t.commit ∧ t.commit < s.commit) ch := by
  intro fuel
  induction fuel with
  | zero => intro br ch h; simp [mySZZLoopF] at h
  | succ n ih =>
    intro br ch h
    simp only [mySZZLoopF] at h
    cases hM : M br with
    | none => simp only [hM, Option.some.injEq] at h; subst h; simp
    | some mapped =>
      simp only [hM] at h
      cases hP : P br.commit with
      | nil => simp only [hP, Option.some.injEq] at h; subst h; simp
      | cons parent rest =>
        simp only [hP] at h
        cases hB : B parent mapped with
        | none => simp only [hB, Option.some.injEq] at h; subst h; simp
        | some br2 =>
          simp only [hB, Option.map_eq_some'] at h
          obtain ⟨ch2, hch2, rfl⟩ := h
          have hch2' := ih br2 ch2 hch2
          cases n with
          | zero => simp [mySZZLoopF] at hch2
          | succ n' =>
            obtain ⟨t, rfl⟩ := mySZZLoopF_head P B M n' br2 ch2 hch2
            refine List.chain'_cons.mpr ⟨⟨?_, ?_⟩, hch2'⟩
            · exact ⟨parent, by rw [hP]; exact List.mem_cons_self _ _, hblame _ _ _ hB⟩
            · have h1 : parent < br.commit := htopo _ _ (by rw [hP]; exact List.mem_cons_self _ _)
              have h2 : br2.commit ≤ parent := reaches_le P htopo (hblame _ _ _ hB)
              omega

/-- In `map_modified_line_java`'s output, change type `"Insert"` forces a
`-1` mapped line. -/
theorem mySZZJavaLoopF_ne_nil (P : Nat → List Nat) (B : Nat → Nat → Option BlameEntry)
    (astMap : Nat → List FileMapping) (fp : String) (fuel : Nat) (br : BlameEntry)
    (ch : List Step4) (h : mySZZJavaLoopF P B astMap fp fuel br = some ch) : ch ≠ [] := by
  cases fuel with
  | zero => simp [mySZZJavaLoopF] at h
  | succ n =>
    simp only [mySZZJavaLoopF] at h
    cases hM : (mapModifiedLineJava (astMap br.commit) fp br.lineNum).1 with
    | none => simp only [hM, Option.some.injEq] at h; subst h; simp
    | some mapped =>
      simp only [hM] at h
      cases hP : P br.commit with
      | nil => simp only [hP, Option.some.injEq] at h; subst h; simp
      | cons parent rest =>
        simp only [hP] at h
        cases hB : B parent mapped with
        | none => simp only [hB, Option.some.injEq] at h; subst h; simp
        | some br2 =>
          simp only [hB, Option.map_eq_some'] at h
          obtain ⟨ch2, _, rfl⟩ := h
          simp

/-- In the Java `MySZZ` walk, an `"Insert"`-classified step is the last
step of its chain. -/
theorem mySZZJavaLoopF_insert_last (P : Nat → List Nat) (B : Nat → Nat → Option BlameEntry)
    (astMap : Nat → List FileMapping) (fp : String) :
    ∀ fuel br ch, mySZZJavaLoopF P B astMap fp fuel br = some ch →
    ∀ s ∈ ch.dropLast, s.changeType ≠ "Insert" := by
  intro fuel
  induction fuel with
  | zero => intro br ch h; simp [mySZZJavaLoopF] at h
  | succ n ih =>
    intro br ch h
    simp only [mySZZJavaLoopF] at h
    cases hM : (mapModifiedLineJava (astMap br.commit) fp br.lineNum).1 with
    | none => simp only [hM, Option.some.injEq] at h; subst h; simp
    | some mapped =>
      simp only [hM] at h
      cases hP : P br.commit with
      | nil => simp only [hP, Option.some.injEq] at h; subst h; simp
      | cons parent rest =>
        simp only [hP] at h
        cases hB : B parent mapped with
        | none => simp only [hB, Option.some.injEq] at h; subst h; simp
        | some br2 =>
          simp only [hB, Option.map_eq_some'] at h
          obtain ⟨ch2, hch2, rfl⟩ := h
          intro s hs
          have hne : ch2 ≠ [] := mySZZJavaLoopF_ne_nil P B astMap fp n _ ch2 hch2
          cases ch2 with
          | nil => exact absurd rfl hne
          | cons a l =>
            rw [List.dropLast_cons₂] at hs
            rcases List.mem_cons.mp hs with rfl | hs'
            · intro hins
              have hins' : (mapModifiedLineJava (astMap br.commit) fp br.lineNum).2 = "Insert" :=
                hins
              have hnone := mapModifiedLineJava_insert (astMap br.commit) fp br.lineNum hins'
              rw [hnone] at hM
              cases hM
            · exact ih _ (a :: l) hch2 s hs'

/-- Splitting helper: `Insert` is terminal in a cons chain when the head
cannot be `Insert` unless the tail is empty. -/
theorem insertOnlyLast_cons (step : Step4) (tail : List Step4)
    (h1 : tail ≠ [] → step.changeType ≠ "Insert")
    (h2 : ∀ s ∈ tail.dropLast, s.changeType ≠ "Insert") :
    ∀ s ∈ (step :: tail).dropLast, s.changeType ≠ "Insert" := by
  cases tail with
  | nil => simp
  | cons a l =>
    intro s hs
    rw [List.dropLast_cons₂] at hs
    rcases List.mem_cons.mp hs with rfl | hs'
    · exact h1 (by simp)
    · exact h2 s hs'

/-- In the LLM-assisted Java walk, an `"Insert"`-classified step is the
last step of its chain: either the LLM confirms it (break), or the verdict
falls through to the `mapped_line == -1` check, which `Insert` satisfies. -/
theorem mySZZLLMLoopJava_insert_last (P : Nat → List Nat) (B : Nat → Nat → Option BlameEntry)
    (astMap : Nat → List FileMapping) (fp : String)
    (llm : BlameEntry → String → Option Bool) (glog : Nat → Option Nat) (en : Bool) :
    ∀ depth br, ∀ s ∈ (mySZZLLMLoopJava P B astMap fp llm glog en depth br).dropLast,
      s.changeType ≠ "Insert" := by
  intro depth
  induction depth with
  | zero => intro br; simp [mySZZLLMLoopJava]
  | succ n ih =>
    intro br
    simp only [mySZZLLMLoopJava]
    apply insertOnlyLast_cons
    · intro htail hct
      have hct' : (mapModifiedLineJava (astMap br.commit) fp br.lineNum).2 = "Insert" := hct
      have hnone := mapModifiedLineJava_insert (astMap br.commit) fp br.lineNum hct'
      apply htail
      cases en with
      | false => simp [hct', hnone]
      | true =>
        cases hv : llm br "Insert" with
        | none => simp [hv, hct']
        | some b =>
          cases b with
          | false => simp [hv, hct', hnone]
          | true => simp [hv, hct']
    · repeat' split
      all_goals first
        | exact ih _
        | simp

/-! ## The walker claims -/

/-- **C1**, counterexample — `MySZZ.find_bic`'s per-seed loop is a
`while True:` with no depth bound: on a 61-commit linear history whose
mapper keeps answering, the chain reaches 61 steps, exceeding the
`max_depth = 50` that the spec (and `MySZZWithLLM`) configure. -/
theorem c1_counterexample :
    (mySZZLoopF demoParents demoBlame (fun e => some e.lineNum) 61 ⟨60, 1, ""⟩).map
      List.length = some 61 ∧ 50 < 61 :=
  ⟨by decide, by norm_num⟩

/-- **C1**, amended — the backward trace always terminates on a finite
history: `MySZZWithLLM`'s loop is depth-bounded (≤ its `max_depth` budget),
while `MySZZ`'s unbounded loop still terminates because every blame step
moves to a strict ancestor, bounding the chain by the seed commit's
position in the topological order (not by any configured max depth). -/
theorem c1_walk_terminates (P : Nat → List Nat) (B : Nat → Nat → Option BlameEntry)
    (M : BlameEntry → Option Nat) (astMap : Nat → List FileMapping) (fp : String)
    (llm : BlameEntry → String → Option Bool) (glog : Nat → Option Nat) (en : Bool)
    (htopo : ∀ c p, p ∈ P c → p < c)
    (hble : ∀ r l e, B r l = some e → e.commit ≤ r)
    (fuel : Nat) (br : BlameEntry) (hfuel : br.commit < fuel) :
    (∃ ch, mySZZLoopF P B M fuel br = some ch ∧ ch.length ≤ br.commit + 1)
    ∧ ∀ depth br2, (mySZZLLMLoopJava P B astMap fp llm glog en depth br2).length ≤ depth :=
  ⟨mySZZLoopF_terminates P B M htopo hble fuel br hfuel,
    mySZZLLMLoopJava_length_le P B astMap fp llm glog en⟩

/-- **C1**, witness. -/
theorem c1_witness :
    (∃ ch, mySZZLoopF demoParents demoBlame (fun e => some e.lineNum) 4 ⟨3, 1, ""⟩ = some ch
      ∧ ch.length ≤ 4)
    ∧ ∀ depth br2,
        (mySZZLLMLoopJava demoParents demoBlame astMapDemo "A.java"
          (fun _ _ => none) (fun _ => none) true depth br2).length ≤ depth :=
  c1_walk_terminates demoParents demoBlame (fun e => some e.lineNum) astMapDemo "A.java"
    (fun _ _ => none) (fun _ => none) true demoParents_topo demoBlame_le 4 ⟨3, 1, ""⟩
    (by norm_num)

/-- **C3** — a step classified `Insert` is the last step of its chain, in
both `MySZZ`'s Java walk and `MySZZWithLLM`'s walk: after the mapper
reports `Insert` no further step is appended for that seed. -/
theorem c3_insert_is_terminal (P : Nat → List Nat) (B : Nat → Nat → Option BlameEntry)
    (astMap : Nat → List FileMapping) (fp : String)
    (llm : BlameEntry → String → Option Bool) (glog : Nat → Option Nat) (en : Bool) :
    (∀ fuel br ch, mySZZJavaLoopF P B astMap fp fuel br = some ch →
      ∀ s ∈ ch.dropLast, s.changeType ≠ "Insert")
    ∧ ∀ depth br, ∀ s ∈ (mySZZLLMLoopJava P B astMap fp llm glog en depth br).dropLast,
        s.changeType ≠ "Insert" :=
  ⟨mySZZJavaLoopF_insert_last P B astMap fp,
    mySZZLLMLoopJava_insert_last P B astMap fp llm glog en⟩

/-- **C3**, witness — on the demo history the walk from commit 2 produces
`[Update at 2, Insert at 1]`; the non-final step is not an `Insert`. -/
theorem c3_witness : (⟨2, 1, "", "Update"⟩ : Step4).changeType ≠ "Insert" :=
  (c3_insert_is_terminal demoParents demoBlame astMapDemo "A.java"
      (fun _ _ => none) (fun _ => none) true).1
    3 ⟨2, 1, ""⟩ [⟨2, 1, "", "Update"⟩, ⟨1, 1, "", "Insert"⟩] (by decide)
    ⟨2, 1, "", "Update"⟩ (by simp)

/-- **C4** — a commit with zero parents forces `Insert` in
`SrcMLAnalyzer.analyze` before any file content or parse output is even
consulted (confidence 0.9), and a root commit always ends the walk: every
non-final step of a chain sits at a commit that has a parent. -/
theorem c4_root_commit (P : Nat → List Nat) (fileAt : Nat → String → Option String)
    (srcmlParse : String → String → Option String)
    (B : Nat → Nat → Option BlameEntry) (M : BlameEntry → Option Nat)
    (c : Nat) (f : String) (l : Nat) (fuel : Nat) (br : BlameEntry) (ch : List BlameEntry)
    (hch : mySZZLoopF P B M fuel br = some ch) :
    (P c = [] → srcmlAnalyze P fileAt srcmlParse c f l =
      ⟨"srcml", true, "Insert", none, some l, 9/10, none⟩)
    ∧ ∀ s ∈ ch.dropLast, P s.commit ≠ [] := by
  refine ⟨?_, mySZZLoopF_root_last P B M fuel br ch hch⟩
  intro hroot
  unfold srcmlAnalyze
  rw [hroot]

/-- **C4**, witness — commit 0 of the demo history is a root: the srcml
analyzer answers Insert 0.9 there whatever the repository contents, and
commit 2, a non-final chain step, indeed has a parent. -/
theorem c4_witness :
    srcmlAnalyze demoParents (fun _ _ => some "int a;") (fun _ _ => some "unit")
      0 "a.c" 3 = ⟨"srcml", true, "Insert", none, some 3, 9/10, none⟩
    ∧ demoParents 2 ≠ [] := by
  have h := c4_root_commit demoParents (fun _ _ => some "int a;") (fun _ _ => some "unit")
    demoBlame (fun e => some e.lineNum) 0 "a.c" 3 3 ⟨2, 1, ""⟩
    [⟨2, 1, ""⟩, ⟨1, 1, ""⟩, ⟨0, 1, ""⟩] (by decide)
  exact ⟨h.1 rfl, h.2 ⟨2, 1, ""⟩ (by simp)⟩

/-- **C9** — along any chain `MySZZ`'s walk produces, each next step's
commit is a strict ancestor of the previous step's (blame is issued at the
first parent of the previous commit and attributes within its ancestry),
and no commit repeats. -/
theorem c9_chain_strictly_descends (P : Nat → List Nat) (B : Nat → Nat → Option BlameEntry)
    (M : BlameEntry → Option Nat)
    (htopo : ∀ c p, p ∈ P c → p < c)
    (hblame : ∀ r l e, B r l = some e → Reaches P r e.commit)
    (fuel : Nat) (br : BlameEntry) (ch : List BlameEntry)
    (hch : mySZZLoopF P B M fuel br = some ch) :
    List.Chain' (fun s t => StrictAnc P s.commit t.commit) ch ∧
    (ch.map (fun s => s.commit)).Nodup := by
  have h := mySZZLoopF_chain P B M htopo hblame fuel br ch hch
  constructor
  · exact h.imp (fun _ _ hab => hab.1)
  · have hlt : List.Chain' (fun a b : Nat => b < a) (ch.map (fun s => s.commit)) := by
      rw [List.chain'_map]
      exact h.imp (fun _ _ hab => hab.2)
    have hpw : List.Pairwise (fun a b : Nat => b < a) (ch.map (fun s => s.commit)) := by
      haveI : IsTrans Nat (fun a b : Nat => b < a) := ⟨fun _ _ _ h1 h2 => lt_trans h2 h1⟩
      exact List.chain'_iff_pairwise.mp hlt
    exact hpw.imp (fun hab => (Nat.ne_of_lt hab).symm)

/-- **C9**, witness — on the demo history the chain from commit 3 is
`[3, 2, 1, 0]`: strictly descending ancestry, no repeats. -/
theorem c9_witness :
    List.Chain' (fun s t => StrictAnc demoParents s.commit t.commit)
      ([⟨3, 1, ""⟩, ⟨2, 1, ""⟩, ⟨1, 1, ""⟩, ⟨0, 1, ""⟩] : List BlameEntry) ∧
    (([⟨3, 1, ""⟩, ⟨2, 1, ""⟩, ⟨1, 1, ""⟩, ⟨0, 1, ""⟩] : List BlameEntry).map
      (fun s => s.commit)).Nodup :=
  c9_chain_strictly_descends demoParents demoBlame (fun e => some e.lineNum)
    demoParents_topo demoBlame_reaches 4 ⟨3, 1, ""⟩ _ (by decide)

/-- **C8** — with no oracle answer (no client configured, call failed, or
response unparsable) and no usable tool result, the walk treats the step as
`MODIFIED` (the code's name for the spec's Update) with confidence 0.5,
records the step, and continues from the same file and line. -/
theorem c8_fallback_keeps_walking (P : Nat → List Nat)
    (B : Nat → String → Nat → Option BlameEntry)
    (oracle : BlameEntry → Option Analysis)
    (toolCombined : BlameEntry → String → Nat → Option CombinedToolResult)
    (cr : CombinedToolResult) (depth c l : Nat) (f : String)
    (p : Nat) (ps : List Nat) (e : BlameEntry)
    (hp : P c = p :: ps) (hb : B p f l = some e)
    (horacle : oracle e = none)
    (htool : toolCombined e f l = some cr) (hcr : cr.hasAnyResult = false)
    (hline : e.lineNum = l) :
    trackLine P B (fun e f l => analyzeCommitWithLLM oracle (toolCombined e f l) e) []
        (depth + 1) c f l
      = ⟨e.commit, f, l, String.mk (e.lineStr.data.take 200), "MODIFIED", 1/2⟩
        :: trackLine P B (fun e f l => analyzeCommitWithLLM oracle (toolCombined e f l) e) []
            depth e.commit f l := by
  subst hline
  simp [trackLine, hp, hb, analyzeCommitWithLLM, horacle, analyzeCommitFallback, htool, hcr,
    ruleBasedAnalysis, pyOrNat, pyOrStr]

/-- **C8**, witness — a concrete step of the fallback walk: the step is
recorded as `MODIFIED`, confidence 0.5, and the walk resumes from commit 4
at the same file and line. -/
theorem c8_witness :
    trackLine demoParents (fun r _ l => some ⟨r, l, "code"⟩)
        (fun e f l => analyzeCommitWithLLM (fun _ => none)
          ((fun _ _ _ => some (⟨none,
            some ⟨"srcml", false, "Unknown", none, some 7, 0, some "tool failed"⟩,
            "a.c", 7⟩ : CombinedToolResult)) e f l) e) []
        3 5 "a.c" 7
      = ⟨4, "a.c", 7, String.mk ("code".data.take 200), "MODIFIED", 1/2⟩
        :: trackLine demoParents (fun r _ l => some ⟨r, l, "code"⟩)
            (fun e f l => analyzeCommitWithLLM (fun _ => none)
              ((fun _ _ _ => some (⟨none,
                some ⟨"srcml", false, "Unknown", none, some 7, 0, some "tool failed"⟩,
                "a.c", 7⟩ : CombinedToolResult)) e f l) e) []
            2 4 "a.c" 7 :=
  c8_fallback_keeps_walking demoParents (fun r _ l => some ⟨r, l, "code"⟩)
    (fun _ => none)
    (fun _ _ _ => some ⟨none,
      some ⟨"srcml", false, "Unknown", none, some 7, 0, some "tool failed"⟩, "a.c", 7⟩)
    ⟨none, some ⟨"srcml", false, "Unknown", none, some 7, 0, some "tool failed"⟩, "a.c", 7⟩
    2 5 7 "a.c" 4 [] ⟨4, 7, "code"⟩ rfl rfl rfl rfl (by decide) rfl

end VSZZ
